import Mathlib

/-!
Shallow embedding of `src/render.rs` of the horrorshow rendering core:
the three-tier capability hierarchy (`RenderOnce`, `RenderMut`, `Render`),
the reference forwarding adapters, the boxed erasure adapters
(`Box<RenderBox>`, `Box<RenderMut>`, `Box<Render>`), the closure-based
`Renderer`, the `Raw` wrapper and the string leaf producers.

The sink type `TemplateBuilder` lives in `template.rs`, which is outside
the sources given; it is modelled from the spec as an append-only string
buffer with a raw write and an escaping write.

Rust traits are embedded as explicit method dictionaries (structures of
functions); `&mut self` methods are embedded as state-passing functions
returning the updated receiver together with the updated sink.
-/

namespace Horrorshow

/-- Modelled from the spec: the sink (`TemplateBuilder` of `template.rs`,
not under the given sources) is an append-only text buffer. Its state is
the text accumulated so far. -/
abbrev TemplateBuilder := String

/-- Modelled from the spec: the HTML-special-character transformation used
by the sink's escaping write. The spec's scenarios show `<` becoming
`&lt;`, `>` becoming `&gt;`, `"` becoming `&quot;`, and double escaping
requires `&` to become `&amp;`; every other character is kept. -/
def escape_char (c : Char) : String :=
  if c = '&' then "&amp;"
  else if c = '"' then "&quot;"
  else if c = '<' then "&lt;"
  else if c = '>' then "&gt;"
  else String.singleton c

/-- Modelled from the spec: escaping of a whole string, character by
character. -/
def escape (s : String) : String :=
  String.join (s.toList.map escape_char)

/-- Modelled from the spec: `writeRaw` appends text unchanged. -/
def TemplateBuilder.write_raw (tmpl : TemplateBuilder) (s : String) : TemplateBuilder :=
  tmpl ++ s

/-- Modelled from the spec: `writeEscaped` (called `write_str` by the
callers in `render.rs`) appends text with HTML-special characters
transformed. -/
def TemplateBuilder.write_str (tmpl : TemplateBuilder) (s : String) : TemplateBuilder :=
  tmpl ++ escape s

/-- Method dictionary of the trait `RenderOnce` (render.rs lines 7-13):
`render_once` consumes the receiver and mutates the sink, `size_hint` is a
pure advisory estimate. -/
structure RenderOnce (α : Type) where
  render_once : α → TemplateBuilder → TemplateBuilder
  size_hint : α → Nat

/-- Method dictionary of the trait `RenderMut : RenderOnce` (lines 16-19):
`render_mut` takes the receiver by mutable reference, so it is embedded as
returning the updated receiver together with the updated sink. -/
structure RenderMut (α : Type) where
  toRenderOnce : RenderOnce α
  render_mut : α → TemplateBuilder → α × TemplateBuilder

/-- Method dictionary of the trait `Render : RenderMut` (lines 22-25):
`render` takes the receiver by shared reference and cannot change it. -/
structure Render (α : Type) where
  toRenderMut : RenderMut α
  render : α → TemplateBuilder → TemplateBuilder

/-- From `impl<'a, T> RenderOnce for &'a mut T where T: RenderMut`
(lines 29-36): `render_once` on a mutable reference performs one
`render_mut` call on the pointee. The pointee outlives the consumed
reference, so its updated state is part of the result. -/
def mutRef_render_once (inst : RenderMut α) (self : α) (tmpl : TemplateBuilder) :
    α × TemplateBuilder :=
  inst.render_mut self tmpl

/-- From lines 33-35: `size_hint` of `&'a mut T` dereferences and forwards
to the pointee's `size_hint`. -/
def mutRef_size_hint (inst : RenderMut α) (self : α) : Nat :=
  inst.toRenderOnce.size_hint self

/-- From `impl<'a, T> RenderOnce for &'a T where T: Render` (lines 38-45):
`render_once` on a shared reference performs one `render` call on the
pointee, which it cannot change. -/
def ref_render_once (inst : Render α) (self : α) (tmpl : TemplateBuilder) :
    TemplateBuilder :=
  inst.render self tmpl

/-- From lines 42-44: `size_hint` of `&'a T` dereferences and forwards to
the pointee's `size_hint`. -/
def ref_size_hint (inst : Render α) (self : α) : Nat :=
  inst.toRenderMut.toRenderOnce.size_hint self

/-- Method dictionary of the trait `RenderBox` (lines 50-58): the boxed
self-consuming render and the boxed size hint. -/
structure RenderBox (α : Type) where
  render_box : α → TemplateBuilder → TemplateBuilder
  size_hint_box : α → Nat

/-- From the blanket `impl<T> RenderBox for T where T: RenderOnce`
(lines 61-69): `render_box` dereferences the box and calls `render_once`,
`size_hint_box` forwards to `RenderOnce::size_hint`. -/
def renderBox_of_renderOnce (inst : RenderOnce α) : RenderBox α where
  render_box := fun self tmpl => inst.render_once self tmpl
  size_hint_box := fun self => inst.size_hint self

/-- A `Box<RenderBox + 'b>` trait object: the erased pointee type, its
`RenderBox` dictionary, and the owned value. -/
structure BoxRenderBox where
  ty : Type
  inst : RenderBox ty
  val : ty

/-- Boxing a concrete `T : RenderOnce` into `Box<RenderBox>`, via the
blanket impl of lines 61-69. -/
def box_renderBox (inst : RenderOnce α) (a : α) : BoxRenderBox :=
  ⟨α, renderBox_of_renderOnce inst, a⟩

/-- From `impl RenderOnce for Box<RenderBox + 'b>` (lines 73-83):
`render_once` invokes `RenderBox::render_box`. -/
def BoxRenderBox.render_once (self : BoxRenderBox) (tmpl : TemplateBuilder) :
    TemplateBuilder :=
  self.inst.render_box self.val tmpl

/-- From lines 80-82: `size_hint` invokes `RenderBox::size_hint_box`. -/
def BoxRenderBox.size_hint (self : BoxRenderBox) : Nat :=
  self.inst.size_hint_box self.val

/-- A `Box<RenderMut + 'b>` trait object. -/
structure BoxRenderMut where
  ty : Type
  inst : RenderMut ty
  val : ty

/-- Boxing a concrete `T : RenderMut` into `Box<RenderMut>`. -/
def box_renderMut (inst : RenderMut α) (a : α) : BoxRenderMut :=
  ⟨α, inst, a⟩

/-- From `impl RenderOnce for Box<RenderMut + 'b>` (lines 87-97):
`render_once` calls `RenderMut::render_mut` on the boxed value, after
which the box is dropped, so only the sink result is observable. -/
def BoxRenderMut.render_once (self : BoxRenderMut) (tmpl : TemplateBuilder) :
    TemplateBuilder :=
  (self.inst.render_mut self.val tmpl).2

/-- From lines 94-96: `size_hint` forwards to the boxed value's
(`RenderOnce`) `size_hint`. -/
def BoxRenderMut.size_hint (self : BoxRenderMut) : Nat :=
  self.inst.toRenderOnce.size_hint self.val

/-- From `impl RenderMut for Box<RenderMut + 'b>` (lines 99-104):
`render_mut` forwards to the boxed value's `render_mut`, updating the
boxed value in place. -/
def BoxRenderMut.render_mut (self : BoxRenderMut) (tmpl : TemplateBuilder) :
    BoxRenderMut × TemplateBuilder :=
  let p := self.inst.render_mut self.val tmpl
  (⟨self.ty, self.inst, p.1⟩, p.2)

/-- A `Box<Render + 'b>` trait object. -/
structure BoxRender where
  ty : Type
  inst : Render ty
  val : ty

/-- Boxing a concrete `T : Render` into `Box<Render>`. -/
def box_render (inst : Render α) (a : α) : BoxRender :=
  ⟨α, inst, a⟩

/-- From `impl RenderOnce for Box<Render + 'b>` (lines 108-118):
`render_once` calls `Render::render` on the boxed value by shared
reference. -/
def BoxRender.render_once (self : BoxRender) (tmpl : TemplateBuilder) :
    TemplateBuilder :=
  self.inst.render self.val tmpl

/-- From lines 115-117: `size_hint` forwards to the boxed value's
(`RenderOnce`) `size_hint`. -/
def BoxRender.size_hint (self : BoxRender) : Nat :=
  self.inst.toRenderMut.toRenderOnce.size_hint self.val

/-- From `impl RenderMut for Box<Render + 'b>` (lines 120-125):
`render_mut` calls `Render::render` by shared reference; the boxed value
is not touched, so the handle is returned unchanged. -/
def BoxRender.render_mut (self : BoxRender) (tmpl : TemplateBuilder) :
    BoxRender × TemplateBuilder :=
  (self, self.inst.render self.val tmpl)

/-- From `impl Render for Box<Render + 'b>` (lines 127-132): `render`
forwards to the boxed value's `render`. -/
def BoxRender.render (self : BoxRender) (tmpl : TemplateBuilder) :
    TemplateBuilder :=
  self.inst.render self.val tmpl

/-- The closure-based producer `Renderer<F>` (lines 137-140): a callable
paired with a fixed size estimate. -/
structure Renderer (F : Type) where
  renderer : F
  expected_size : Nat

/-- Constructor `__new_renderer` (lines 184-189). -/
def new_renderer (expected_size : Nat) (f : F) : Renderer F :=
  ⟨f, expected_size⟩

/-- A Rust `FnMut(&mut TemplateBuilder)` closure: captured internal state
plus a fixed step function that may update this state while mutating the
sink. -/
structure FnMutClosure (σ : Type) where
  state : σ
  step : σ → TemplateBuilder → σ × TemplateBuilder

/-- Calling an `FnMut` closure: run the step on the captured state, keep
the updated state. -/
def FnMutClosure.call (f : FnMutClosure σ) (tmpl : TemplateBuilder) :
    FnMutClosure σ × TemplateBuilder :=
  let p := f.step f.state tmpl
  (⟨p.1, f.step⟩, p.2)

/-- From `impl<F> RenderOnce for Renderer<F> where F: FnOnce` (lines
142-150): `render_once` invokes the callable on the sink. An `FnOnce`
callable consumed by its single call is a function from sink to sink. -/
def Renderer.render_once (self : Renderer (TemplateBuilder → TemplateBuilder))
    (tmpl : TemplateBuilder) : TemplateBuilder :=
  self.renderer tmpl

/-- From lines 147-149: `size_hint` returns the stored `expected_size`,
whatever the callable's shape `F` is. -/
def Renderer.size_hint (self : Renderer F) : Nat :=
  self.expected_size

/-- From `impl<F> RenderMut for Renderer<F> where F: FnMut` (lines
152-156): `render_mut` invokes the callable, whose internal state may
change; `expected_size` is carried along untouched. -/
def Renderer.render_mut (self : Renderer (FnMutClosure σ))
    (tmpl : TemplateBuilder) : Renderer (FnMutClosure σ) × TemplateBuilder :=
  let p := self.renderer.call tmpl
  (⟨p.1, self.expected_size⟩, p.2)

/-- From `impl<F> Render for Renderer<F> where F: Fn` (lines 158-162):
`render` invokes the callable, which has no mutable state. -/
def Renderer.render (self : Renderer (TemplateBuilder → TemplateBuilder))
    (tmpl : TemplateBuilder) : TemplateBuilder :=
  self.renderer tmpl

/-- The raw content marker `Raw<S>` (line 205), a one-field tuple struct;
the string-like payload `S: AsRef<str>` is embedded as the string it
dereferences to. -/
structure Raw where
  payload : String

/-- Constructor `Raw::new` (lines 209-211). -/
def Raw.new (content : String) : Raw :=
  ⟨content⟩

/-- From `impl<S> RenderOnce for Raw<S>` (lines 214-221): `render_once`
writes the payload raw; `size_hint` is the payload's byte length (Rust
`str::len`). -/
def Raw.renderOnceImpl : RenderOnce Raw where
  render_once := fun self tmpl => tmpl.write_raw self.payload
  size_hint := fun self => self.payload.utf8ByteSize

/-- From `impl<S> RenderMut for Raw<S>` (lines 223-227): `render_mut`
writes the payload raw and does not touch the receiver. -/
def Raw.renderMutImpl : RenderMut Raw where
  toRenderOnce := Raw.renderOnceImpl
  render_mut := fun self tmpl => (self, tmpl.write_raw self.payload)

/-- From `impl<S> Render for Raw<S>` (lines 229-233): `render` writes the
payload raw. -/
def Raw.renderImpl : Render Raw where
  toRenderMut := Raw.renderMutImpl
  render := fun self tmpl => tmpl.write_raw self.payload

/-- From `impl<'a> RenderOnce for &'a str` (lines 235-245): `render_once`
performs an escaping write of the slice; `size_hint` is its byte
length. -/
def strSlice.renderOnceImpl : RenderOnce String where
  render_once := fun self tmpl => tmpl.write_str self
  size_hint := fun self => self.utf8ByteSize

/-- From `impl<'a> RenderMut for &'a str` (lines 247-252). -/
def strSlice.renderMutImpl : RenderMut String where
  toRenderOnce := strSlice.renderOnceImpl
  render_mut := fun self tmpl => (self, tmpl.write_str self)

/-- From `impl<'a> Render for &'a str` (lines 254-259). -/
def strSlice.renderImpl : Render String where
  toRenderMut := strSlice.renderMutImpl
  render := fun self tmpl => tmpl.write_str self

/-- From `impl RenderOnce for String` (lines 261-270): `render_once`
performs an escaping write of the owned string; `size_hint` is its byte
length. -/
def ownedString.renderOnceImpl : RenderOnce String where
  render_once := fun self tmpl => tmpl.write_str self
  size_hint := fun self => self.utf8ByteSize

/-- From `impl RenderMut for String` (lines 272-277). -/
def ownedString.renderMutImpl : RenderMut String where
  toRenderOnce := ownedString.renderOnceImpl
  render_mut := fun self tmpl => (self, tmpl.write_str self)

/-- From `impl Render for String` (lines 279-284). -/
def ownedString.renderImpl : Render String where
  toRenderMut := ownedString.renderMutImpl
  render := fun self tmpl => tmpl.write_str self

/-! Claim theorems. -/

/-- C1: for every value S of the read-repeatable tier (`Render`),
rendering a shared reference to S through `RenderOnce::render_once`
writes exactly the same bytes to the sink as calling `Render::render` on
S directly, for every sink state. -/
theorem C1_ref_render_once_eq_render {α : Type} (inst : Render α)
    (a : α) (tmpl : TemplateBuilder) :
    ref_render_once inst a tmpl = inst.render a tmpl := rfl

/-- C2: for every value S of the mutate-repeatable tier (`RenderMut`),
rendering an exclusive reference to S through `RenderOnce::render_once`
writes the same bytes to the sink, and leaves S in the same final state,
as one direct `RenderMut::render_mut` call. -/
theorem C2_mutRef_render_once_eq_render_mut {α : Type} (inst : RenderMut α)
    (a : α) (tmpl : TemplateBuilder) :
    (mutRef_render_once inst a tmpl).2 = (inst.render_mut a tmpl).2
    ∧ (mutRef_render_once inst a tmpl).1 = (inst.render_mut a tmpl).1 :=
  ⟨rfl, rfl⟩

/-- C3: boxing a concrete producer into each of the three erasure handles
(`Box<RenderBox>`, `Box<RenderMut>`, `Box<Render>`) and rendering the
handle via `RenderOnce::render_once` writes bytes identical to rendering
the unboxed producer directly with its corresponding tier method
(`render_once`, `render_mut`, `render` respectively), and each handle's
`size_hint` equals the unboxed producer's `size_hint`. -/
theorem C3_box_erasure_faithful {α β γ : Type}
    (i1 : RenderOnce α) (a : α) (i2 : RenderMut β) (b : β)
    (i3 : Render γ) (c : γ) (tmpl : TemplateBuilder) :
    ((box_renderBox i1 a).render_once tmpl = i1.render_once a tmpl
      ∧ (box_renderBox i1 a).size_hint = i1.size_hint a)
    ∧ ((box_renderMut i2 b).render_once tmpl = (i2.render_mut b tmpl).2
      ∧ (box_renderMut i2 b).size_hint = i2.toRenderOnce.size_hint b)
    ∧ ((box_render i3 c).render_once tmpl = i3.render c tmpl
      ∧ (box_render i3 c).size_hint = i3.toRenderMut.toRenderOnce.size_hint c) :=
  ⟨⟨rfl, rfl⟩, ⟨rfl, rfl⟩, ⟨rfl, rfl⟩⟩

/-- C4: through every tier, rendering `Raw s` appends s verbatim to the
sink while rendering a plain string appends its escaped form; in
particular `Raw "<b>"` rendered from the empty sink yields the literal
text, and the plain string yields its HTML-escaped form, through each of
the three tiers. -/
theorem C4_raw_vs_escaped (s : String) (tmpl : TemplateBuilder) :
    (Raw.renderOnceImpl.render_once (Raw.new s) tmpl = tmpl ++ s
      ∧ (Raw.renderMutImpl.render_mut (Raw.new s) tmpl).2 = tmpl ++ s
      ∧ Raw.renderImpl.render (Raw.new s) tmpl = tmpl ++ s)
    ∧ (strSlice.renderOnceImpl.render_once s tmpl = tmpl ++ escape s
      ∧ (strSlice.renderMutImpl.render_mut s tmpl).2 = tmpl ++ escape s
      ∧ strSlice.renderImpl.render s tmpl = tmpl ++ escape s)
    ∧ (Raw.renderOnceImpl.render_once (Raw.new "<b>") "" = "<b>"
      ∧ (Raw.renderMutImpl.render_mut (Raw.new "<b>") "").2 = "<b>"
      ∧ Raw.renderImpl.render (Raw.new "<b>") "" = "<b>")
    ∧ (strSlice.renderOnceImpl.render_once "<b>" "" = "&lt;b&gt;"
      ∧ (strSlice.renderMutImpl.render_mut "<b>" "").2 = "&lt;b&gt;"
      ∧ strSlice.renderImpl.render "<b>" "" = "&lt;b&gt;") := by
  refine ⟨⟨rfl, rfl, rfl⟩, ⟨rfl, rfl, rfl⟩, ⟨?_, ?_, ?_⟩, ⟨?_, ?_, ?_⟩⟩ <;> decide

/-- C5: a read-repeatable producer whose render appends a fixed output,
rendered twice from two independent call sites (each through a fresh
shared reference consumed by `render_once`), leaves the sink holding the
initial content followed by the output twice concatenated. -/
theorem C5_render_twice_duplicates {α : Type} (inst : Render α) (a : α)
    (out : String) (p : TemplateBuilder)
    (h : ∀ tmpl : TemplateBuilder, inst.render a tmpl = tmpl ++ out) :
    ref_render_once inst a (ref_render_once inst a p) = p ++ out ++ out := by
  show inst.render a (inst.render a p) = p ++ out ++ out
  rw [h, h]

/-- Witness for C5 on the string-slice producer "ab" over the initial sink
content "p". -/
theorem C5_witness :
    ref_render_once strSlice.renderImpl "ab"
        (ref_render_once strSlice.renderImpl "ab" "p")
      = "p" ++ escape "ab" ++ escape "ab" :=
  C5_render_twice_duplicates strSlice.renderImpl "ab" (escape "ab") "p"
    (fun _ => rfl)

/-- C6: the stored `expected_size` of a `Renderer` has no influence on the
bytes written by any of its render methods (nor on the callable's
resulting state), and `size_hint` returns exactly the stored
`expected_size`. -/
theorem C6_size_hint_noninterference {σ : Type}
    (f : TemplateBuilder → TemplateBuilder) (g : FnMutClosure σ)
    (n1 n2 : Nat) (tmpl : TemplateBuilder) :
    (new_renderer n1 f).render_once tmpl = (new_renderer n2 f).render_once tmpl
    ∧ ((new_renderer n1 g).render_mut tmpl).2
      = ((new_renderer n2 g).render_mut tmpl).2
    ∧ ((new_renderer n1 g).render_mut tmpl).1.renderer
      = ((new_renderer n2 g).render_mut tmpl).1.renderer
    ∧ (new_renderer n1 f).render tmpl = (new_renderer n2 f).render tmpl
    ∧ (new_renderer n1 f).size_hint = n1
    ∧ (new_renderer n1 g).size_hint = n1 :=
  ⟨rfl, rfl, rfl, rfl, rfl, rfl⟩

/-- C7: each of the three tier calls on a `Box<Render>` handle writes the
bytes of the inner value's shared-access `render`; in particular a
`render_mut` call on the handle returns the handle (and the boxed
producer) unchanged. -/
theorem C7_boxRender_forwards_to_render {α : Type} (inst : Render α)
    (a : α) (tmpl : TemplateBuilder) :
    (box_render inst a).render_once tmpl = inst.render a tmpl
    ∧ ((box_render inst a).render_mut tmpl).2 = inst.render a tmpl
    ∧ ((box_render inst a).render_mut tmpl).1 = box_render inst a
    ∧ (box_render inst a).render tmpl = inst.render a tmpl :=
  ⟨rfl, rfl, rfl, rfl⟩

/-- C8: for each leaf producer — `Raw s`, a string slice, an owned
string — `size_hint` returns exactly the byte length of the payload;
being embedded as a pure function of the producer it has no effect on the
producer or the sink. -/
theorem C8_leaf_size_hint_exact (s : String) :
    Raw.renderOnceImpl.size_hint (Raw.new s) = s.utf8ByteSize
    ∧ strSlice.renderOnceImpl.size_hint s = s.utf8ByteSize
    ∧ ownedString.renderOnceImpl.size_hint s = s.utf8ByteSize :=
  ⟨rfl, rfl, rfl⟩

/-- C9: the reference forwarding adapters forward the size hint as well:
`size_hint` of `&mut T` and of `&T` equals the pointee's `size_hint`
rather than the default of zero — witnessed concretely by the nonzero
hint of a shared reference to the slice "abc". -/
theorem C9_ref_size_hint_forwards {α β : Type} (im : RenderMut α) (a : α)
    (ir : Render β) (b : β) :
    mutRef_size_hint im a = im.toRenderOnce.size_hint a
    ∧ ref_size_hint ir b = ir.toRenderMut.toRenderOnce.size_hint b
    ∧ ref_size_hint strSlice.renderImpl "abc" = 3 :=
  ⟨rfl, rfl, rfl⟩

/-- C10: the owned-string producer and the string-slice producer holding
the same content are observationally equivalent: every tier's render
method writes the same bytes (and returns the same receiver), and their
size hints agree. -/
theorem C10_str_string_equiv (s : String) (tmpl : TemplateBuilder) :
    strSlice.renderOnceImpl.render_once s tmpl
      = ownedString.renderOnceImpl.render_once s tmpl
    ∧ strSlice.renderMutImpl.render_mut s tmpl
      = ownedString.renderMutImpl.render_mut s tmpl
    ∧ strSlice.renderImpl.render s tmpl = ownedString.renderImpl.render s tmpl
    ∧ strSlice.renderOnceImpl.size_hint s = ownedString.renderOnceImpl.size_hint s :=
  ⟨rfl, rfl, rfl, rfl⟩

end Horrorshow
